import Mathlib

/-
Verification of the strato-griphook OAuth2 token-lifecycle subsystem.

The definitions below are a shallow embedding of:
  - src/auth.ts            (OAuthClient: token cache, single-flight refresh)
  - the login module       (loadCredentials, saveCredentials, clearCredentials,
                            startCallbackServer, login, statusCommand)
  - src/server.ts          (getAccessTokenFromRefresh: multi-tenant exchange cache)

Timestamps are Int milliseconds (Date.now()).  Network I/O is modelled by
passing the outcome of the round trip as an explicit argument; the number of
network requests actually performed is returned alongside each result.
-/

namespace Griphook

/-- In-memory cached access token, the CachedToken interface of auth.ts. -/
structure CachedToken where
  accessToken : String
  expiresAt : Int
  deriving DecidableEq

/-- Persisted credential record, the StoredCredentials interface of the login
module. -/
structure StoredCredentials where
  accessToken : String
  refreshToken : String
  expiresAt : Int
  refreshExpiresAt : Int
  openIdDiscoveryUrl : String
  clientId : String
  clientSecret : Option String
  deriving DecidableEq

/-- Provider token response consumed by the refresh grant (TokenResponse of the
login module); refresh_expires_in is optional because a provider may omit it. -/
structure TokenResponse where
  access_token : String
  refresh_token : String
  expires_in : Int
  refresh_expires_in : Option Int
  deriving DecidableEq

/-- Error taxonomy of the single-tenant token cache (the three throw sites of
OAuthClient.fetchNewToken). -/
inductive AuthError where
  | notAuthenticated
  | sessionExpired
  | refreshFailed (detail : String)
  deriving DecidableEq

/-- Result of one getAccessToken call. -/
inductive CallResult where
  | token (t : String)
  | failed (e : AuthError)
  deriving DecidableEq

/-- Outcome of the network I/O performed by refreshAccessToken: a failed
discovery fetch, a failed token-endpoint call, or a successful token response. -/
inductive RefreshNet where
  | discoveryError (msg : String)
  | tokenError (msg : String)
  | success (r : TokenResponse)
  deriving DecidableEq

/-- Refresh 2 minutes before expiry (auth.ts line 13). -/
def TOKEN_REFRESH_BUFFER_MS : Int := 120 * 1000

/-- JavaScript x || d on an optional number: absent and 0 both fall back to d. -/
def jsOrDefault (o : Option Int) (d : Int) : Int :=
  match o with
  | some n => if n = 0 then d else n
  | none => d

/-- State of one OAuthClient instance together with the credential file it
persists to: cached is this.cachedToken, stored is this.storedCredentials, and
disk is the parsed content of the credentials file written by saveCredentials. -/
structure AuthState where
  cached : Option CachedToken
  stored : Option StoredCredentials
  disk : Option StoredCredentials
  deriving DecidableEq

/-- saveCredentials of the login module: write the record to the credential
file (write-replace; the file afterwards holds exactly this record). -/
def saveCredentials (c : StoredCredentials) (st : AuthState) : AuthState :=
  { st with disk := some c }

/-- The credential record built on a successful refresh (auth.ts lines 86-92):
the four persisted token fields are replaced from the provider response; the
discovery URL, client id and client secret are kept. -/
def refreshedCreds (s : StoredCredentials) (now2 : Int) (r : TokenResponse) :
    StoredCredentials :=
  { s with
    accessToken := r.access_token
    refreshToken := r.refresh_token
    expiresAt := now2 + r.expires_in * 1000
    refreshExpiresAt := now2 + jsOrDefault r.refresh_expires_in 86400 * 1000 }

/-- OAuthClient.fetchNewToken as a state transformer.  now is Date.now() at the
start of the call, now2 is Date.now() after the refresh round trip, net is the
outcome of the network I/O.  The third component counts network requests made
(discovery fetch and token-endpoint call each count as one). -/
def fetchNewToken (now now2 : Int) (net : RefreshNet) (st : AuthState) :
    CallResult × AuthState × Nat :=
  match st.stored with
  | none => (.failed .notAuthenticated, st, 0)
  | some s =>
    if now < s.expiresAt - TOKEN_REFRESH_BUFFER_MS then
      (.token s.accessToken,
        { st with cached := some ⟨s.accessToken, s.expiresAt⟩ }, 0)
    else if s.refreshExpiresAt ≤ now then
      (.failed .sessionExpired, st, 0)
    else
      match net with
      | .discoveryError m => (.failed (.refreshFailed m), st, 1)
      | .tokenError m => (.failed (.refreshFailed m), st, 2)
      | .success r =>
        let s2 := refreshedCreds s now2 r
        let st2 := saveCredentials s2 { st with stored := some s2 }
        (.token r.access_token,
          { st2 with cached := some ⟨r.access_token, s2.expiresAt⟩ }, 2)

/-- The cache-validity test of getAccessToken (auth.ts line 33). -/
def cacheValid (now : Int) (c : Option CachedToken) : Bool :=
  match c with
  | some t => decide (now < t.expiresAt - TOKEN_REFRESH_BUFFER_MS)
  | none => false

/-- OAuthClient.getAccessToken for a single sequential caller: the
pendingTokenRequest field is null before the call and cleared by the finally
clause afterwards, so the single-flight branch is a no-op here.  The concurrent
behaviour is modelled separately below. -/
def getAccessToken (now now2 : Int) (net : RefreshNet) (st : AuthState) :
    CallResult × AuthState × Nat :=
  match st.cached with
  | some t =>
    if now < t.expiresAt - TOKEN_REFRESH_BUFFER_MS then (.token t.accessToken, st, 0)
    else fetchNewToken now now2 net st
  | none => fetchNewToken now now2 net st

/-- loadCredentials of the login module: an absent file yields null, and a file
whose contents throw inside the try block also yields null.  parse stands for
JSON.parse followed by the StoredCredentials cast, returning none exactly when
parsing throws. -/
def loadCredentials (parse : String → Option StoredCredentials)
    (file : Option String) : Option StoredCredentials :=
  match file with
  | none => none
  | some content => parse content

/-- clearCredentials of the login module: remove the file, idempotent when it is
already absent. -/
def clearCredentials (file : Option String) : Option String :=
  match file with
  | none => none
  | some _ => none

/-- The OAuthClient constructor: credentials are loaded once and the token cache
starts empty. -/
def mkClient (loaded : Option StoredCredentials) : AuthState :=
  ⟨none, loaded, loaded⟩

/-- OAuthClient.hasCredentials. -/
def hasCredentials (st : AuthState) : Bool :=
  st.stored.isSome

/-- What statusCommand reports. -/
inductive StatusReport where
  | notAuthenticated
  | loggedIn (tokenValid refreshValid : Bool)
  deriving DecidableEq

/-- statusCommand of the login module as a function of the loaded credentials
and the current time: no credentials report the not-logged-in message, otherwise
the validity of both expiries is reported. -/
def statusReport (creds : Option StoredCredentials) (now : Int) : StatusReport :=
  match creds with
  | none => .notAuthenticated
  | some c => .loggedIn (decide (now < c.expiresAt)) (decide (now < c.refreshExpiresAt))

/-- Link between the token cache and the stored record: both assignments to
this.cachedToken (auth.ts lines 62-65 and 97-100) copy the access token and
expiry out of this.storedCredentials at that moment. -/
def CacheMatchesStored (st : AuthState) : Prop :=
  ∀ t, st.cached = some t →
    ∃ s, st.stored = some s ∧ t.accessToken = s.accessToken ∧ t.expiresAt = s.expiresAt

lemma cacheMatchesStored_mkClient (loaded : Option StoredCredentials) :
    CacheMatchesStored (mkClient loaded) := by
  intro t ht
  simp [mkClient] at ht

lemma cacheMatchesStored_fetchNewToken (now now2 : Int) (net : RefreshNet)
    (st : AuthState) (h : CacheMatchesStored st) :
    CacheMatchesStored (fetchNewToken now now2 net st).2.1 := by
  unfold fetchNewToken
  cases hs : st.stored with
  | none => simpa using h
  | some s =>
    by_cases h1 : now < s.expiresAt - TOKEN_REFRESH_BUFFER_MS
    · simp only [h1, if_true]
      intro t ht
      simp only [Option.some.injEq] at ht
      exact ⟨s, rfl, by rw [← ht], by rw [← ht]⟩
    · simp only [h1, if_false]
      by_cases h2 : s.refreshExpiresAt ≤ now
      · simpa [h2] using h
      · simp only [h2, if_false]
        cases net with
        | discoveryError m => simpa using h
        | tokenError m => simpa using h
        | success r =>
          intro t ht
          simp only [saveCredentials, Option.some.injEq] at ht
          exact ⟨refreshedCreds s now2 r, rfl, by rw [← ht]; rfl, by rw [← ht]⟩

lemma cacheMatchesStored_getAccessToken (now now2 : Int) (net : RefreshNet)
    (st : AuthState) (h : CacheMatchesStored st) :
    CacheMatchesStored (getAccessToken now now2 net st).2.1 := by
  unfold getAccessToken
  cases hc : st.cached with
  | none => exact cacheMatchesStored_fetchNewToken now now2 net st h
  | some t =>
    by_cases h1 : now < t.expiresAt - TOKEN_REFRESH_BUFFER_MS
    · simpa [h1] using h
    · simpa [h1] using cacheMatchesStored_fetchNewToken now now2 net st h

/-
Event-loop view of concurrent getAccessToken callers (auth.ts lines 31-49).
A call runs synchronously up to its first await: it either serves the cache,
joins this.pendingTokenRequest, or creates that promise by calling
fetchNewToken, whose body also runs synchronously up to the refresh round trip.
The promise later settles, and every caller awaiting it observes the one
settled value; the finally clause then clears pendingTokenRequest.
-/

/-- A pendingTokenRequest promise: already settled with a value, or still bound
to the in-flight refresh network round. -/
inductive PromiseVal where
  | ready (r : CallResult)
  | awaitingNet
  deriving DecidableEq

/-- Shared state of one OAuthClient under concurrent callers.  waiters are the
callers awaiting this.pendingTokenRequest, finished maps each completed caller
to its result, and refreshesStarted counts the refresh rounds initiated (each
standing for one token-exchange network round trip). -/
structure SFState where
  auth : AuthState
  pending : Option PromiseVal
  waiters : List Nat
  refreshesStarted : Nat
  finished : List (Nat × CallResult)
  deriving DecidableEq

/-- A caller that found the cache invalid: join the in-flight promise if there
is one (auth.ts line 38), otherwise create it (line 42) by running the
synchronous prefix of fetchNewToken, which settles the promise at once when no
refresh round is needed (missing credentials, still-valid stored token, expired
refresh token) and otherwise starts the refresh network round. -/
def sfJoinOrStart (now : Int) (i : Nat) (st : SFState) : SFState :=
  match st.pending with
  | some _ => { st with waiters := i :: st.waiters }
  | none =>
    match st.auth.stored with
    | none =>
      { st with pending := some (.ready (.failed .notAuthenticated)), waiters := [i] }
    | some s =>
      if now < s.expiresAt - TOKEN_REFRESH_BUFFER_MS then
        { st with
          auth := { st.auth with cached := some ⟨s.accessToken, s.expiresAt⟩ }
          pending := some (.ready (.token s.accessToken))
          waiters := [i] }
      else if s.refreshExpiresAt ≤ now then
        { st with pending := some (.ready (.failed .sessionExpired)), waiters := [i] }
      else
        { st with
          pending := some .awaitingNet
          waiters := [i]
          refreshesStarted := st.refreshesStarted + 1 }

/-- The token held by the cache; only read under a true cacheValid guard. -/
def cachedTokenStr : Option CachedToken → String
  | some t => t.accessToken
  | none => ""

/-- The synchronous prefix of one getAccessToken call arriving at time now. -/
def sfArrive (now : Int) (i : Nat) (st : SFState) : SFState :=
  if cacheValid now st.auth.cached then
    { st with finished := (i, .token (cachedTokenStr st.auth.cached)) :: st.finished }
  else sfJoinOrStart now i st

/-- Completion of the refresh network round at time now2 with outcome net: the
promise settles with the refresh result, and on success the credential record,
the credential file and the token cache are replaced as in fetchNewToken.
The stored-credentials field is never cleared while a refresh is in flight, so
the none branch under success is unreachable in any run considered below. -/
def sfNetReturn (now2 : Int) (net : RefreshNet) (st : SFState) : SFState :=
  match st.pending with
  | some .awaitingNet =>
    match net with
    | .discoveryError m =>
      { st with pending := some (.ready (.failed (.refreshFailed m))) }
    | .tokenError m =>
      { st with pending := some (.ready (.failed (.refreshFailed m))) }
    | .success r =>
      match st.auth.stored with
      | some s =>
        let s2 := refreshedCreds s now2 r
        { st with
          auth := ⟨some ⟨r.access_token, s2.expiresAt⟩, some s2, some s2⟩
          pending := some (.ready (.token r.access_token)) }
      | none => { st with pending := some (.ready (.failed .notAuthenticated)) }
  | _ => st

/-- Delivery of a settled promise: every waiter receives the same settled value
and the finally clause clears pendingTokenRequest (auth.ts lines 46-48). -/
def sfDeliver (st : SFState) : SFState :=
  match st.pending with
  | some (.ready r) =>
    { st with
      finished := st.waiters.map (fun i => (i, r)) ++ st.finished
      waiters := []
      pending := none }
  | _ => st

/-- A batch of concurrent arrivals, processed in order by the event loop. -/
def sfArrivals (evs : List (Int × Nat)) (st : SFState) : SFState :=
  evs.foldl (fun s e => sfArrive e.1 e.2 s) st

/-- The value the in-flight refresh settles with. -/
def sfRefreshResult (net : RefreshNet) : CallResult :=
  match net with
  | .discoveryError m => .failed (.refreshFailed m)
  | .tokenError m => .failed (.refreshFailed m)
  | .success r => .token r.access_token

/-- One while no promise is in flight, zero afterwards: together with the
refresh counter this is a measure that arrivals never increase. -/
def pendingSlack (st : SFState) : Nat :=
  match st.pending with
  | none => 1
  | some _ => 0

lemma sfArrive_measure (now : Int) (i : Nat) (st : SFState) :
    (sfArrive now i st).refreshesStarted + pendingSlack (sfArrive now i st)
      ≤ st.refreshesStarted + pendingSlack st := by
  unfold sfArrive sfJoinOrStart pendingSlack
  by_cases hc : cacheValid now st.auth.cached
  · simp [hc]
  · simp only [hc, if_false]
    cases hp : st.pending with
    | some p => simp
    | none =>
      cases hs : st.auth.stored with
      | none => simp
      | some s =>
        by_cases h1 : now < s.expiresAt - TOKEN_REFRESH_BUFFER_MS
        · simp [h1]
        · by_cases h2 : s.refreshExpiresAt ≤ now
          · simp [h1, h2]
          · simp [h1, h2]

lemma sfArrivals_measure (evs : List (Int × Nat)) (st : SFState) :
    (sfArrivals evs st).refreshesStarted + pendingSlack (sfArrivals evs st)
      ≤ st.refreshesStarted + pendingSlack st := by
  induction evs generalizing st with
  | nil => simp [sfArrivals]
  | cons e evs ih =>
    calc (sfArrivals (e :: evs) st).refreshesStarted
          + pendingSlack (sfArrivals (e :: evs) st)
        ≤ (sfArrive e.1 e.2 st).refreshesStarted
          + pendingSlack (sfArrive e.1 e.2 st) := ih (sfArrive e.1 e.2 st)
      _ ≤ st.refreshesStarted + pendingSlack st := sfArrive_measure e.1 e.2 st

lemma sfArrivals_join (evs : List (Int × Nat)) (st : SFState) (p : PromiseVal)
    (hp : st.pending = some p)
    (hc : ∀ e ∈ evs, cacheValid e.1 st.auth.cached = false) :
    sfArrivals evs st = { st with waiters := (evs.map Prod.snd).reverse ++ st.waiters } := by
  induction evs generalizing st with
  | nil => simp [sfArrivals]
  | cons e evs ih =>
    have hce : cacheValid e.1 st.auth.cached = false := hc e (by simp)
    have hstep : sfArrive e.1 e.2 st = { st with waiters := e.2 :: st.waiters } := by
      unfold sfArrive sfJoinOrStart
      simp [hce, hp]
    have : sfArrivals (e :: evs) st = sfArrivals evs { st with waiters := e.2 :: st.waiters } := by
      simp only [sfArrivals, List.foldl_cons]
      rw [show (sfArrive e.1 e.2 st) = { st with waiters := e.2 :: st.waiters } from hstep]
    rw [this, ih { st with waiters := e.2 :: st.waiters } (by simpa using hp)
        (by intro e' he'; exact hc e' (by simp [he']))]
    simp

/-
Multi-tenant exchange cache (server.ts lines 50-59 and 437-491).  The inbound
bearer credential is hashed and the hash is the only key ever used against the
shared Map; SHA-256 itself is kept abstract as a function argument.
-/

/-- One entry of the access-token cache (server.ts line 56). -/
structure ExchEntry where
  accessToken : String
  expiresAt : Int
  deriving DecidableEq

/-- Outcome of the network I/O of one token exchange: a failure after callsMade
requests, carrying the HTTP status of the provider response when there is one,
or a successful token response. -/
inductive ExchNet where
  | failure (callsMade : Nat) (status : Option Nat)
  | success (accessToken : String) (expiresIn : Int)
  deriving DecidableEq

/-- Result type of getAccessTokenFromRefresh, with the error strings of the
source. -/
inductive ExchResult where
  | ok (accessToken : String)
  | err (msg : String)
  deriving DecidableEq

/-- Buffer before expiry at which a cached entry is refreshed (server.ts line 59). -/
def EXCH_REFRESH_BUFFER_MS : Int := 60 * 1000

/-- Map.get on the insertion-ordered cache. -/
def mapGet : List (String × ExchEntry) → String → Option ExchEntry
  | [], _ => none
  | (k, v) :: m, key => if k = key then some v else mapGet m key

/-- Map.set: replace in place when the key exists, append otherwise. -/
def mapSet : List (String × ExchEntry) → String → ExchEntry → List (String × ExchEntry)
  | [], key, v => [(key, v)]
  | (k, w) :: m, key, v => if k = key then (k, v) :: m else (k, w) :: mapSet m key v

/-- Map.delete. -/
def mapDelete : List (String × ExchEntry) → String → List (String × ExchEntry)
  | [], _ => []
  | (k, w) :: m, key => if k = key then mapDelete m key else (k, w) :: mapDelete m key

lemma mapGet_mapSet_ne (m : List (String × ExchEntry)) (key k : String)
    (v : ExchEntry) (h : k ≠ key) : mapGet (mapSet m key v) k = mapGet m k := by
  induction m with
  | nil =>
    simp only [mapSet, mapGet]
    rw [if_neg (Ne.symm h)]
  | cons kv m ih =>
    obtain ⟨k1, v1⟩ := kv
    by_cases h1 : k1 = key
    · have hk1 : ¬ k1 = k := fun hk => h (hk.symm.trans h1)
      simp only [mapSet, if_pos h1, mapGet, if_neg hk1]
    · simp only [mapSet, if_neg h1, mapGet]
      by_cases h2 : k1 = k
      · simp [if_pos h2]
      · simp [if_neg h2, ih]

lemma mapGet_mapDelete_ne (m : List (String × ExchEntry)) (key k : String)
    (h : k ≠ key) : mapGet (mapDelete m key) k = mapGet m k := by
  induction m with
  | nil => simp [mapDelete]
  | cons kv m ih =>
    obtain ⟨k1, v1⟩ := kv
    by_cases h1 : k1 = key
    · have hk1 : ¬ k1 = k := fun hk => h (hk.symm.trans h1)
      simp only [mapDelete, if_pos h1, mapGet, if_neg hk1]
      exact ih
    · simp only [mapDelete, if_neg h1, mapGet]
      by_cases h2 : k1 = k
      · simp [if_pos h2]
      · simp [if_neg h2, ih]

lemma mapGet_mapDelete_self (m : List (String × ExchEntry)) (key : String) :
    mapGet (mapDelete m key) key = none := by
  induction m with
  | nil => simp [mapDelete, mapGet]
  | cons kv m ih =>
    obtain ⟨k1, v1⟩ := kv
    by_cases h1 : k1 = key
    · simp only [mapDelete, if_pos h1]
      exact ih
    · simp only [mapDelete, if_neg h1, mapGet, if_neg h1]
      exact ih

lemma mem_mapSet (m : List (String × ExchEntry)) (key k : String)
    (v e : ExchEntry) (h : (k, e) ∈ mapSet m key v) : (k, e) ∈ m ∨ k = key := by
  induction m with
  | nil =>
    simp [mapSet] at h
    exact Or.inr h.1
  | cons kv m ih =>
    obtain ⟨k1, v1⟩ := kv
    by_cases h1 : k1 = key
    · subst h1
      simp only [mapSet, if_true] at h
      rcases List.mem_cons.1 h with h2 | h2
      · exact Or.inr (by cases h2; rfl)
      · exact Or.inl (List.mem_cons_of_mem _ h2)
    · simp only [mapSet, h1, if_false] at h
      rcases List.mem_cons.1 h with h2 | h2
      · exact Or.inl (by simp [h2])
      · rcases ih h2 with h3 | h3
        · exact Or.inl (List.mem_cons_of_mem _ h3)
        · exact Or.inr h3

lemma mem_mapDelete (m : List (String × ExchEntry)) (key k : String)
    (e : ExchEntry) (h : (k, e) ∈ mapDelete m key) : (k, e) ∈ m := by
  induction m with
  | nil => simp [mapDelete] at h
  | cons kv m ih =>
    obtain ⟨k1, v1⟩ := kv
    by_cases h1 : k1 = key
    · simp only [mapDelete, h1, if_true] at h
      exact List.mem_cons_of_mem _ (ih h)
    · simp only [mapDelete, h1, if_false] at h
      rcases List.mem_cons.1 h with h2 | h2
      · simp [h2]
      · exact List.mem_cons_of_mem _ (ih h2)

/-- The cache-hit test of getAccessTokenFromRefresh (server.ts line 446). -/
def exchHit (now : Int) (e : Option ExchEntry) : Option String :=
  match e with
  | some c =>
    if now < c.expiresAt - EXCH_REFRESH_BUFFER_MS then some c.accessToken else none
  | none => none

/-- getAccessTokenFromRefresh (server.ts lines 437-491): hash the inbound
credential, serve a buffered cache hit, otherwise run the exchange.  A provider
response of status 400 exactly maps to the invalid-credential error; every other
failure maps to the generic exchange error; the entry under the hashed key is
deleted on any failure and replaced on success.  The last component counts
network requests performed. -/
def getAccessTokenFromRefresh (hash : String → String) (now : Int)
    (refreshToken : String) (oauthConfigured : Bool) (net : ExchNet)
    (cache : List (String × ExchEntry)) :
    ExchResult × List (String × ExchEntry) × Nat :=
  match exchHit now (mapGet cache (hash refreshToken)) with
  | some tok => (.ok tok, cache, 0)
  | none =>
    if oauthConfigured then
      match net with
      | .failure calls status =>
        ((if status = some 400 then ExchResult.err "Refresh token is invalid or expired"
          else ExchResult.err "Failed to exchange refresh token"),
          mapDelete cache (hash refreshToken), calls)
      | .success tok expIn =>
        (.ok tok, mapSet cache (hash refreshToken) ⟨tok, now + expIn * 1000⟩, 2)
    else (.err "OAuth not configured", cache, 0)

/-
Loopback callback listener of the interactive login flow (startCallbackServer,
login module).  The handler is modelled together with the settlement state of
the promise the login flow awaits; resolve and reject are no-ops once the
promise has settled.
-/

/-- One HTTP request to the loopback listener, with the query parameters the
handler reads (searchParams.get yields none when the parameter is absent). -/
structure CallbackRequest where
  path : String
  code : Option String
  state : Option String
  error : Option String
  errorDescription : Option String
  deriving DecidableEq

/-- JavaScript truthiness of an optional string: absent and empty are falsy. -/
def jsTruthy (o : Option String) : Bool :=
  match o with
  | some s => s != ""
  | none => false

/-- JavaScript a || b on strings. -/
def jsOrStr (o : Option String) (d : String) : String :=
  match o with
  | some s => if s = "" then d else s
  | none => d

/-- Settlement state of the promise returned by startCallbackServer. -/
inductive PromiseState where
  | pending
  | resolvedWith (code : String)
  | rejectedWith (err : String)
  deriving DecidableEq

def settleResolve (p : PromiseState) (c : String) : PromiseState :=
  match p with
  | .pending => .resolvedWith c
  | _ => p

def settleReject (p : PromiseState) (e : String) : PromiseState :=
  match p with
  | .pending => .rejectedWith e
  | _ => p

/-- The loopback listener: whether server.close() has been called, and the
promise the login flow awaits. -/
structure ListenerState where
  closed : Bool
  promise : PromiseState
  deriving DecidableEq

/-- The request handler of startCallbackServer, paired with the HTTP status it
writes.  A non-callback path gets a generic 404 and changes nothing; a missing
or mismatched state answers 400, closes the server and rejects with the
state-mismatch error; a provider error or a missing code likewise answer 400,
close and reject; a valid callback answers 200 and resolves the promise with
the authorization code without closing the server. -/
def handleRequest (expectedState : String) (st : ListenerState)
    (req : CallbackRequest) : ListenerState × Nat :=
  if req.path = "/callback" then
    if !(jsTruthy req.state) || req.state != some expectedState then
      (⟨true, settleReject st.promise "OAuth state mismatch"⟩, 400)
    else if jsTruthy req.error then
      (⟨true, settleReject st.promise
        (String.append "OAuth error: "
          (jsOrStr req.errorDescription (jsOrStr req.error "")))⟩, 400)
    else if jsTruthy req.code then
      ({ st with promise := settleResolve st.promise (jsOrStr req.code "") }, 200)
    else
      (⟨true, settleReject st.promise "Missing authorization code"⟩, 400)
  else (st, 404)

/-- The login flow performs the code-for-token exchange exactly when the
callback promise resolved with a code; a rejected promise propagates out of the
await before any exchange. -/
def tokenExchangesAfterCallback (p : PromiseState) : Nat :=
  match p with
  | .resolvedWith _ => 1
  | _ => 0

/- Concrete sample data used by the witnesses below. -/

def sDemo : StoredCredentials :=
  ⟨"tok", "ref", 1000000, 2000000, "disc", "client", none⟩

def stDemo : AuthState := ⟨some ⟨"tok", 1000000⟩, some sDemo, some sDemo⟩

def sDemo2 : StoredCredentials :=
  ⟨"old", "oldref", 0, 1000000000, "disc", "client", none⟩

def sDemo3 : StoredCredentials :=
  ⟨"old", "oldref", 0, 100, "disc", "client", none⟩

def respDemo : TokenResponse := ⟨"new", "newref", 60, some 300⟩

def parseNone : String → Option StoredCredentials := fun _ => none

lemma stDemo_inv : CacheMatchesStored stDemo := by
  intro t ht
  simp only [stDemo, Option.some.injEq] at ht
  exact ⟨sDemo, rfl, by rw [← ht]; rfl, by rw [← ht]; rfl⟩

/-- C2: a getAccessToken call whose cached token expires strictly more than the
two-minute buffer after the current time returns that cached token with no
network traffic and no state change.  Once the current time is within the
buffer (or past expiry) the cached token is not served: the call takes the
refresh path of fetchNewToken, and any token it then returns is the access
token of the fresh provider response, obtained with the full two-request
refresh round trip (the refresh path may instead fail, for example with
sessionExpired, without serving the stale cache). -/
theorem c2_refresh_buffer (now now2 : Int) (net : RefreshNet) (st : AuthState)
    (t : CachedToken) (hc : st.cached = some t) (hinv : CacheMatchesStored st) :
    (now < t.expiresAt - TOKEN_REFRESH_BUFFER_MS →
      getAccessToken now now2 net st = (.token t.accessToken, st, 0))
    ∧ (¬ now < t.expiresAt - TOKEN_REFRESH_BUFFER_MS →
      getAccessToken now now2 net st = fetchNewToken now now2 net st
      ∧ ∀ x, (fetchNewToken now now2 net st).1 = .token x →
          ∃ r, net = .success r ∧ x = r.access_token
            ∧ (fetchNewToken now now2 net st).2.2 = 2) := by
  obtain ⟨cached, stored, disk⟩ := st
  simp only at hc
  subst hc
  constructor
  · intro h
    simp [getAccessToken, h]
  · intro h
    obtain ⟨s, hs, ha, he⟩ := hinv t rfl
    simp only at hs
    subst hs
    refine ⟨by simp [getAccessToken, h], ?_⟩
    intro x hx
    have hstale : ¬ now < s.expiresAt - TOKEN_REFRESH_BUFFER_MS := by
      rw [← he]; exact h
    simp only [fetchNewToken, hstale, if_false] at hx ⊢
    by_cases h2 : s.refreshExpiresAt ≤ now
    · simp [h2] at hx
    · simp only [h2, if_false] at hx ⊢
      cases net with
      | discoveryError m => simp at hx
      | tokenError m => simp at hx
      | success r =>
        simp only at hx
        exact ⟨r, rfl, by simp_all, by simp⟩

theorem c2_witness :
    getAccessToken 0 0 (.success respDemo) stDemo = (.token "tok", stDemo, 0) :=
  (c2_refresh_buffer 0 0 (.success respDemo) stDemo ⟨"tok", 1000000⟩ rfl stDemo_inv).1
    (by decide)

/-- C4: on the genuine refresh path (credentials present, access token within
the buffer, refresh token alive), a successful provider response replaces the
whole credential record at once — access token, refresh token and both
expiries, in memory and in the credential file — together with the token
cache; any refresh failure surfaces as refreshFailed and leaves the in-memory
credentials, the cache and the file exactly as they were. -/
theorem c4_atomic_update (now now2 : Int) (st : AuthState) (s : StoredCredentials)
    (hs : st.stored = some s)
    (hstale : ¬ now < s.expiresAt - TOKEN_REFRESH_BUFFER_MS)
    (halive : ¬ s.refreshExpiresAt ≤ now) :
    (∀ r, fetchNewToken now now2 (.success r) st =
        (.token r.access_token,
          ⟨some ⟨r.access_token, (refreshedCreds s now2 r).expiresAt⟩,
            some (refreshedCreds s now2 r), some (refreshedCreds s now2 r)⟩, 2))
    ∧ (∀ m, fetchNewToken now now2 (.discoveryError m) st =
        (.failed (.refreshFailed m), st, 1))
    ∧ (∀ m, fetchNewToken now now2 (.tokenError m) st =
        (.failed (.refreshFailed m), st, 2)) := by
  obtain ⟨cached, stored, disk⟩ := st
  simp only at hs
  subst hs
  refine ⟨?_, ?_, ?_⟩ <;> intro a <;>
    simp [fetchNewToken, saveCredentials, hstale, halive]

theorem c4_witness :
    fetchNewToken 500 600 (.success respDemo) ⟨none, some sDemo2, some sDemo2⟩
      = (.token "new",
          ⟨some ⟨"new", (refreshedCreds sDemo2 600 respDemo).expiresAt⟩,
            some (refreshedCreds sDemo2 600 respDemo),
            some (refreshedCreds sDemo2 600 respDemo)⟩, 2) :=
  (c4_atomic_update 500 600 ⟨none, some sDemo2, some sDemo2⟩ sDemo2 rfl
    (by decide) (by decide)).1 respDemo

/-- C5: when a refresh is needed (no valid cache entry, stored access token
within or past the buffer) and the stored refresh token has expired,
getAccessToken fails with sessionExpired after zero network requests — neither
the discovery fetch nor the token-endpoint call happens — and the state is
untouched. -/
theorem c5_session_expired (now now2 : Int) (net : RefreshNet) (st : AuthState)
    (s : StoredCredentials)
    (hcache : cacheValid now st.cached = false)
    (hs : st.stored = some s)
    (hstale : ¬ now < s.expiresAt - TOKEN_REFRESH_BUFFER_MS)
    (hexp : s.refreshExpiresAt ≤ now) :
    getAccessToken now now2 net st = (.failed .sessionExpired, st, 0) := by
  obtain ⟨cached, stored, disk⟩ := st
  simp only at hcache hs
  subst hs
  cases cached with
  | none => simp [getAccessToken, fetchNewToken, hstale, hexp]
  | some t =>
    have hlt : ¬ now < t.expiresAt - TOKEN_REFRESH_BUFFER_MS := by
      simpa [cacheValid] using hcache
    simp [getAccessToken, fetchNewToken, hlt, hstale, hexp]

theorem c5_witness :
    getAccessToken 500 600 (.success respDemo) ⟨none, some sDemo3, some sDemo3⟩
      = (.failed .sessionExpired, ⟨none, some sDemo3, some sDemo3⟩, 0) :=
  c5_session_expired 500 600 (.success respDemo) ⟨none, some sDemo3, some sDemo3⟩
    sDemo3 rfl rfl (by decide) (by decide)

/-- C6: logout clears the credential file, after which status reports not
authenticated and a getAccessToken on any client constructed from the cleared
store fails with notAuthenticated at zero network requests, for every time and
every would-be network outcome. -/
theorem c6_logout (parse : String → Option StoredCredentials) (file : Option String)
    (now nowS now2 : Int) (net : RefreshNet) :
    loadCredentials parse (clearCredentials file) = none
    ∧ statusReport (loadCredentials parse (clearCredentials file)) nowS = .notAuthenticated
    ∧ getAccessToken now now2 net (mkClient (loadCredentials parse (clearCredentials file)))
        = (.failed .notAuthenticated, mkClient none, 0) := by
  cases file <;>
    simp [clearCredentials, loadCredentials, statusReport, mkClient, getAccessToken,
      fetchNewToken]

/-- C10: loadCredentials yields none both for a missing credential file and for
a present file whose contents fail to parse, so a corrupted credential file
leaves every operation in the unauthenticated state — no credentials, a
not-authenticated status, and getAccessToken failing with notAuthenticated —
rather than raising a parse error. -/
theorem c10_corrupt_credentials (parse : String → Option StoredCredentials)
    (file : Option String) (now nowS now2 : Int) (net : RefreshNet)
    (h : file = none ∨ ∃ content, file = some content ∧ parse content = none) :
    loadCredentials parse file = none
    ∧ hasCredentials (mkClient (loadCredentials parse file)) = false
    ∧ statusReport (loadCredentials parse file) nowS = .notAuthenticated
    ∧ getAccessToken now now2 net (mkClient (loadCredentials parse file))
        = (.failed .notAuthenticated, mkClient none, 0) := by
  have hload : loadCredentials parse file = none := by
    rcases h with rfl | ⟨content, rfl, hp⟩
    · rfl
    · simpa [loadCredentials] using hp
  rw [hload]
  exact ⟨rfl, rfl, rfl, rfl⟩

theorem c10_witness :
    loadCredentials parseNone (some "corrupt") = none
    ∧ hasCredentials (mkClient (loadCredentials parseNone (some "corrupt"))) = false
    ∧ statusReport (loadCredentials parseNone (some "corrupt")) 0 = .notAuthenticated
    ∧ getAccessToken 0 0 (.success respDemo)
        (mkClient (loadCredentials parseNone (some "corrupt")))
        = (.failed .notAuthenticated, mkClient none, 0) :=
  c10_corrupt_credentials parseNone (some "corrupt") 0 0 0 (.success respDemo)
    (Or.inr ⟨"corrupt", rfl, rfl⟩)

/-- C1: concurrent getAccessToken calls are single-flight.  For any batch of
concurrent arrivals on a client whose cache is invalid at every arrival time,
at most one refresh is ever started; and in the refresh scenario — stored
credentials whose access token is within the buffer and whose refresh token is
alive at the first arrival — exactly one refresh round is started, and once it
settles and is delivered, the finished list pairs every caller of the batch
with that one refresh result: the same token on success or the same failure. -/
theorem c1_single_flight (c0 : Option CachedToken) (s : StoredCredentials)
    (d0 : Option StoredCredentials) (t1 : Int) (i1 : Nat) (rest : List (Int × Nat))
    (now2 : Int) (net : RefreshNet)
    (hc1 : cacheValid t1 c0 = false)
    (hcr : ∀ e ∈ rest, cacheValid e.1 c0 = false)
    (hstale : ¬ t1 < s.expiresAt - TOKEN_REFRESH_BUFFER_MS)
    (halive : ¬ s.refreshExpiresAt ≤ t1) :
    (∀ evs : List (Int × Nat),
      (sfArrivals evs ⟨⟨c0, some s, d0⟩, none, [], 0, []⟩).refreshesStarted ≤ 1)
    ∧ (sfArrivals ((t1, i1) :: rest) ⟨⟨c0, some s, d0⟩, none, [], 0, []⟩).refreshesStarted = 1
    ∧ (sfDeliver (sfNetReturn now2 net
        (sfArrivals ((t1, i1) :: rest) ⟨⟨c0, some s, d0⟩, none, [], 0, []⟩))).finished
      = ((rest.map Prod.snd).reverse ++ [i1]).map (fun i => (i, sfRefreshResult net)) := by
  have hgen : ∀ evs : List (Int × Nat),
      (sfArrivals evs ⟨⟨c0, some s, d0⟩, none, [], 0, []⟩).refreshesStarted ≤ 1 := by
    intro evs
    calc (sfArrivals evs ⟨⟨c0, some s, d0⟩, none, [], 0, []⟩).refreshesStarted
        ≤ (sfArrivals evs ⟨⟨c0, some s, d0⟩, none, [], 0, []⟩).refreshesStarted
          + pendingSlack (sfArrivals evs ⟨⟨c0, some s, d0⟩, none, [], 0, []⟩) :=
          Nat.le_add_right _ _
      _ ≤ (⟨⟨c0, some s, d0⟩, none, [], 0, []⟩ : SFState).refreshesStarted
          + pendingSlack ⟨⟨c0, some s, d0⟩, none, [], 0, []⟩ :=
          sfArrivals_measure evs _
      _ = 1 := rfl
  have hstep : sfArrive t1 i1 ⟨⟨c0, some s, d0⟩, none, [], 0, []⟩
      = ⟨⟨c0, some s, d0⟩, some .awaitingNet, [i1], 1, []⟩ := by
    unfold sfArrive sfJoinOrStart
    simp [hc1, hstale, halive]
  have hall : sfArrivals ((t1, i1) :: rest) ⟨⟨c0, some s, d0⟩, none, [], 0, []⟩
      = ⟨⟨c0, some s, d0⟩, some .awaitingNet, (rest.map Prod.snd).reverse ++ [i1], 1, []⟩ := by
    show sfArrivals rest (sfArrive t1 i1 ⟨⟨c0, some s, d0⟩, none, [], 0, []⟩) = _
    rw [hstep]
    rw [sfArrivals_join rest ⟨⟨c0, some s, d0⟩, some .awaitingNet, [i1], 1, []⟩
      .awaitingNet rfl (fun e he => hcr e he)]
  have hnr : (sfNetReturn now2 net
        ⟨⟨c0, some s, d0⟩, some .awaitingNet, (rest.map Prod.snd).reverse ++ [i1], 1, []⟩).pending
        = some (.ready (sfRefreshResult net))
      ∧ (sfNetReturn now2 net
        ⟨⟨c0, some s, d0⟩, some .awaitingNet, (rest.map Prod.snd).reverse ++ [i1], 1, []⟩).waiters
        = (rest.map Prod.snd).reverse ++ [i1]
      ∧ (sfNetReturn now2 net
        ⟨⟨c0, some s, d0⟩, some .awaitingNet, (rest.map Prod.snd).reverse ++ [i1], 1, []⟩).finished
        = [] := by
    cases net <;> simp [sfNetReturn, sfRefreshResult]
  have hdel : ∀ st2 : SFState, st2.pending = some (.ready (sfRefreshResult net)) →
      (sfDeliver st2).finished
        = st2.waiters.map (fun i => (i, sfRefreshResult net)) ++ st2.finished := by
    intro st2 hp
    unfold sfDeliver
    rw [hp]
  refine ⟨hgen, ?_, ?_⟩
  · rw [hall]
  · rw [hall, hdel _ hnr.1, hnr.2.1, hnr.2.2]
    simp

theorem c1_witness :
    (sfArrivals [(500, 1), (600, 2), (700, 3)]
        ⟨⟨none, some sDemo2, some sDemo2⟩, none, [], 0, []⟩).refreshesStarted = 1
    ∧ (sfDeliver (sfNetReturn 800 (.success respDemo)
        (sfArrivals [(500, 1), (600, 2), (700, 3)]
          ⟨⟨none, some sDemo2, some sDemo2⟩, none, [], 0, []⟩))).finished
      = (([(600, 2), (700, 3)].map Prod.snd).reverse ++ [1]).map
          (fun i => (i, sfRefreshResult (.success respDemo))) :=
  ⟨(c1_single_flight none sDemo2 (some sDemo2) 500 1 [(600, 2), (700, 3)] 800
      (.success respDemo) rfl (fun e _ => rfl) (by decide) (by decide)).2.1,
   (c1_single_flight none sDemo2 (some sDemo2) 500 1 [(600, 2), (700, 3)] 800
      (.success respDemo) rfl (fun e _ => rfl) (by decide) (by decide)).2.2⟩

/-- A stand-in for the SHA-256 hex digest with distinct outputs on the concrete
credentials used by the witnesses. -/
def hashDemo (s : String) : String := String.append "sha256" s

/-- C3: tenant isolation of the multi-tenant exchange cache.  Assuming the hash
does not collide on the two credentials (the collision resistance SHA-256 is
relied on for), a resolve of credential B leaves the cache entry under A's
hashed key untouched; the result of a resolve of A depends only on the cache
entry under A's own hashed key; and a resolve of A can only add or change an
entry at A's own hashed key — every key ever written is a hash image, never a
raw credential, so B's entries and B's tokens are unreachable from A. -/
theorem c3_tenant_isolation (hash : String → String) (A B : String)
    (hne : hash A ≠ hash B)
    (nowA nowB : Int) (cfgA cfgB : Bool) (netA netB : ExchNet)
    (cache cache' : List (String × ExchEntry))
    (hagree : mapGet cache (hash A) = mapGet cache' (hash A)) :
    mapGet (getAccessTokenFromRefresh hash nowB B cfgB netB cache).2.1 (hash A)
      = mapGet cache (hash A)
    ∧ (getAccessTokenFromRefresh hash nowA A cfgA netA cache).1
      = (getAccessTokenFromRefresh hash nowA A cfgA netA cache').1
    ∧ ∀ k e, (k, e) ∈ (getAccessTokenFromRefresh hash nowA A cfgA netA cache).2.1 →
        (k, e) ∈ cache ∨ k = hash A := by
  refine ⟨?_, ?_, ?_⟩
  · cases hhit : exchHit nowB (mapGet cache (hash B)) with
    | some tok => simp [getAccessTokenFromRefresh, hhit]
    | none =>
      cases cfgB with
      | false => simp [getAccessTokenFromRefresh, hhit]
      | true =>
        cases netB with
        | failure calls status =>
          simp [getAccessTokenFromRefresh, hhit, mapGet_mapDelete_ne _ _ _ hne]
        | success tok expIn =>
          simp [getAccessTokenFromRefresh, hhit, mapGet_mapSet_ne _ _ _ _ hne]
  · cases hhit : exchHit nowA (mapGet cache' (hash A)) with
    | some tok =>
      have h1 : exchHit nowA (mapGet cache (hash A)) = some tok := by
        rw [hagree, hhit]
      simp [getAccessTokenFromRefresh, h1, hhit]
    | none =>
      have h1 : exchHit nowA (mapGet cache (hash A)) = none := by
        rw [hagree, hhit]
      cases cfgA with
      | false => simp [getAccessTokenFromRefresh, h1, hhit]
      | true =>
        cases netA with
        | failure calls status => simp [getAccessTokenFromRefresh, h1, hhit]
        | success tok expIn => simp [getAccessTokenFromRefresh, h1, hhit]
  · intro k e
    by_cases hk : k = hash A
    · exact fun _ => Or.inr hk
    · intro hmem
      left
      revert hmem
      cases hhit : exchHit nowA (mapGet cache (hash A)) with
      | some tok => simp [getAccessTokenFromRefresh, hhit]
      | none =>
        cases cfgA with
        | false => simp [getAccessTokenFromRefresh, hhit]
        | true =>
          cases netA with
          | failure calls status =>
            intro hmem
            simp only [getAccessTokenFromRefresh, hhit, if_true] at hmem
            exact mem_mapDelete _ _ _ _ hmem
          | success tok expIn =>
            intro hmem
            simp only [getAccessTokenFromRefresh, hhit, if_true] at hmem
            rcases mem_mapSet _ _ _ _ _ hmem with h | h
            · exact h
            · exact absurd h hk

theorem c3_witness :
    mapGet (getAccessTokenFromRefresh hashDemo 0 "credB" true
        (.success "tokB" 100) []).2.1 (hashDemo "credA")
      = mapGet [] (hashDemo "credA")
    ∧ (getAccessTokenFromRefresh hashDemo 0 "credA" true (.success "tokA" 100) []).1
      = (getAccessTokenFromRefresh hashDemo 0 "credA" true (.success "tokA" 100)
          [(hashDemo "credB", ⟨"tokB", 999999⟩)]).1 :=
  ⟨(c3_tenant_isolation hashDemo "credA" "credB" (by decide) 0 0 true true
      (.success "tokA" 100) (.success "tokB" 100) []
      [(hashDemo "credB", ⟨"tokB", 999999⟩)] (by decide)).1,
   (c3_tenant_isolation hashDemo "credA" "credB" (by decide) 0 0 true true
      (.success "tokA" 100) (.success "tokB" 100) []
      [(hashDemo "credB", ⟨"tokB", 999999⟩)] (by decide)).2.1⟩

/-- C7 counterexample: an HTTP 401 provider rejection — a 400-class response —
does not yield the invalid-credential error: getAccessTokenFromRefresh matches
the status against 400 exactly and labels every other failure with the generic
exchange error. -/
theorem c7_counterexample :
    (getAccessTokenFromRefresh hashDemo 0 "credA" true (.failure 2 (some 401)) []).1
      = .err "Failed to exchange refresh token"
    ∧ ¬ (getAccessTokenFromRefresh hashDemo 0 "credA" true (.failure 2 (some 401)) []).1
      = .err "Refresh token is invalid or expired" := by decide

/-- C7 amended: when the exchange runs (no buffered cache hit) and the provider
rejects the presented credential with HTTP status exactly 400, the cache entry
under that credential's hashed key is removed and the call fails with the
invalid-credential error; any other failure yields the generic exchange error,
likewise leaving no cache entry under the key; failures are never cached, so a
subsequent call with the same credential finds no entry and re-runs the
exchange — here, a later successful exchange returns its fresh token. -/
theorem c7_invalid_credential (hash : String → String) (now now2 : Int)
    (cred : String) (cache : List (String × ExchEntry)) (calls calls2 : Nat)
    (status2 : Option Nat) (tok2 : String) (e2 : Int)
    (hmiss : exchHit now (mapGet cache (hash cred)) = none)
    (h400 : status2 ≠ some 400) :
    (getAccessTokenFromRefresh hash now cred true (.failure calls (some 400)) cache).1
      = .err "Refresh token is invalid or expired"
    ∧ mapGet (getAccessTokenFromRefresh hash now cred true
        (.failure calls (some 400)) cache).2.1 (hash cred) = none
    ∧ (getAccessTokenFromRefresh hash now cred true (.failure calls2 status2) cache).1
      = .err "Failed to exchange refresh token"
    ∧ mapGet (getAccessTokenFromRefresh hash now cred true
        (.failure calls2 status2) cache).2.1 (hash cred) = none
    ∧ (getAccessTokenFromRefresh hash now2 cred true (.success tok2 e2)
        (getAccessTokenFromRefresh hash now cred true
          (.failure calls (some 400)) cache).2.1).1
      = .ok tok2 := by
  have h1 : getAccessTokenFromRefresh hash now cred true (.failure calls (some 400)) cache
      = (.err "Refresh token is invalid or expired", mapDelete cache (hash cred), calls) := by
    simp [getAccessTokenFromRefresh, hmiss]
  have h2 : getAccessTokenFromRefresh hash now cred true (.failure calls2 status2) cache
      = (.err "Failed to exchange refresh token", mapDelete cache (hash cred), calls2) := by
    simp [getAccessTokenFromRefresh, hmiss, h400]
  have hmiss2 : exchHit now2
      (mapGet (mapDelete cache (hash cred)) (hash cred)) = none := by
    rw [mapGet_mapDelete_self]
    rfl
  refine ⟨by rw [h1], ?_, by rw [h2], ?_, ?_⟩
  · rw [h1]
    exact mapGet_mapDelete_self _ _
  · rw [h2]
    exact mapGet_mapDelete_self _ _
  · rw [h1]
    simp [getAccessTokenFromRefresh, hmiss2]

theorem c7_witness :
    (getAccessTokenFromRefresh hashDemo 5 "credC" true (.failure 2 (some 400)) []).1
      = .err "Refresh token is invalid or expired"
    ∧ mapGet (getAccessTokenFromRefresh hashDemo 5 "credC" true
        (.failure 2 (some 400)) []).2.1 (hashDemo "credC") = none
    ∧ (getAccessTokenFromRefresh hashDemo 5 "credC" true (.failure 1 none) []).1
      = .err "Failed to exchange refresh token"
    ∧ mapGet (getAccessTokenFromRefresh hashDemo 5 "credC" true
        (.failure 1 none) []).2.1 (hashDemo "credC") = none
    ∧ (getAccessTokenFromRefresh hashDemo 6 "credC" true (.success "fresh" 60)
        (getAccessTokenFromRefresh hashDemo 5 "credC" true
          (.failure 2 (some 400)) []).2.1).1
      = .ok "fresh" :=
  c7_invalid_credential hashDemo 5 6 "credC" [] 2 1 none "fresh" 60 rfl (by decide)

/-- C8: a callback on the expected path whose state parameter is absent or not
exactly the state issued for this attempt rejects the pending login with the
state-mismatch error, closing the listener and answering 400, and no
code-for-token exchange follows from a rejected promise. -/
theorem c8_state_mismatch (expectedState : String) (st : ListenerState)
    (req : CallbackRequest)
    (hpath : req.path = "/callback")
    (hpend : st.promise = .pending)
    (hmis : req.state = none ∨ req.state ≠ some expectedState) :
    handleRequest expectedState st req
      = (⟨true, .rejectedWith "OAuth state mismatch"⟩, 400)
    ∧ tokenExchangesAfterCallback (handleRequest expectedState st req).1.promise = 0 := by
  have hcond : (!(jsTruthy req.state) || req.state != some expectedState) = true := by
    rcases hmis with h | h
    · rw [h]
      rfl
    · simp [h]
  have hmain : handleRequest expectedState st req
      = (⟨true, settleReject st.promise "OAuth state mismatch"⟩, 400) := by
    simp [handleRequest, hpath, hcond]
  rw [hmain, hpend]
  exact ⟨rfl, rfl⟩

theorem c8_witness :
    handleRequest "good" ⟨false, .pending⟩
        ⟨"/callback", some "code1", some "evil", none, none⟩
      = (⟨true, .rejectedWith "OAuth state mismatch"⟩, 400)
    ∧ tokenExchangesAfterCallback
        (handleRequest "good" ⟨false, .pending⟩
          ⟨"/callback", some "code1", some "evil", none, none⟩).1.promise = 0 :=
  c8_state_mismatch "good" ⟨false, .pending⟩
    ⟨"/callback", some "code1", some "evil", none, none⟩ rfl rfl (Or.inr (by decide))

/-- C9 counterexample: after the listener processes a perfectly valid callback
it is not closed — the promise is resolved but closed stays false, and the very
next request is still accepted and answered (here a second valid callback gets
a 200 page), because startCallbackServer only resolves the promise on success
and leaves closing the server to the login flow after the token exchange. -/
theorem c9_counterexample :
    (handleRequest "s1" ⟨false, .pending⟩
        ⟨"/callback", some "c1", some "s1", none, none⟩).1.closed = false
    ∧ (handleRequest "s1" ⟨false, .pending⟩
        ⟨"/callback", some "c1", some "s1", none, none⟩).1.promise = .resolvedWith "c1"
    ∧ (handleRequest "s1"
        (handleRequest "s1" ⟨false, .pending⟩
          ⟨"/callback", some "c1", some "s1", none, none⟩).1
        ⟨"/callback", some "c2", some "s1", none, none⟩).2 = 200 := by decide

/-- C9 amended: every request whose path is not the callback path is answered
with a generic 404 and changes nothing; the promise settles at most once, so
once it is resolved with a code no later request can change that outcome (the
first valid callback wins); and a valid callback on a pending listener answers
200 and resolves the promise while leaving the closed flag as it was — the
listener is closed on an invalid callback, on timeout, or by the login flow
after the token exchange, not immediately upon the valid callback. -/
theorem c9_first_callback_wins (expectedState : String) (st : ListenerState)
    (req : CallbackRequest) (c c0 : String) :
    (req.path ≠ "/callback" → handleRequest expectedState st req = (st, 404))
    ∧ (st.promise = .resolvedWith c0 →
        (handleRequest expectedState st req).1.promise = .resolvedWith c0)
    ∧ (st.promise = .pending → req.path = "/callback" →
        req.state = some expectedState → expectedState ≠ "" →
        req.error = none → req.code = some c → c ≠ "" →
        handleRequest expectedState st req = (⟨st.closed, .resolvedWith c⟩, 200)) := by
  refine ⟨?_, ?_, ?_⟩
  · intro h
    simp [handleRequest, h]
  · intro h
    by_cases hp : req.path = "/callback"
    · simp only [handleRequest, hp, if_true]
      split
      · simp [settleReject, h]
      · split
        · simp [settleReject, h]
        · split
          · simp [settleResolve, h]
          · simp [settleReject, h]
    · simp [handleRequest, hp, h]
  · intro hpend hpath hstate hes herr hcode hcne
    have hcond : (!(jsTruthy req.state) || req.state != some expectedState) = false := by
      rw [hstate]
      simp [jsTruthy, hes]
    simp [handleRequest, hpath, hstate, hes, hcond, herr, hcode, jsTruthy, jsOrStr,
      hcne, settleResolve, hpend]

theorem c9_witness :
    handleRequest "s9" ⟨false, .pending⟩ ⟨"/callback", some "c9", some "s9", none, none⟩
      = (⟨false, .resolvedWith "c9"⟩, 200) :=
  (c9_first_callback_wins "s9" ⟨false, .pending⟩
    ⟨"/callback", some "c9", some "s9", none, none⟩ "c9" "x").2.2
    rfl rfl rfl (by decide) rfl rfl (by decide)

end Griphook
